import Mathlib

/-!
Verification of the jennah job dispatch and provider-routing layer.

The definitions below are a shallow embedding of the Go sources:
  - `internal/dispatcher/dispatcher.go` (Dispatcher, New, ProviderFor,
    SubmitJob, GetJobStatus, CancelJob)
  - `internal/batch/gcp/cloudtasks.go` (mapCloudTasksStatus, CancelJob)
  - `internal/batch/gcp/cloudrunjobs.go` (mapCloudRunStatus, SubmitJob)
Go errors are embedded as the `String` produced by `fmt.Errorf`;
Go `(T, error)` returns become `Except String T` or explicit pairs where
the code meaningfully returns both components.
-/

namespace Jennah

/-- The logical job status vocabulary of the `internal/batch` package,
as used by the provider adapters (`batchpkg.JobStatusUnknown` …). -/
inductive JobStatus where
  | unknown
  | pending
  | running
  | completed
  | failed
  | cancelled
deriving DecidableEq, Repr

/-- Resource requirements of a job: CPU millicores, memory MiB, and the
maximum run duration in seconds (Go integer fields; zero means unset). -/
structure Resources where
  CPUMillis : Int
  MemoryMiB : Int
  MaxRunDurationSeconds : Int
deriving DecidableEq, Repr

/-- Task-group parameters of a `JobConfig`. -/
structure TaskGroup where
  TaskCount : Int
  Parallelism : Int
deriving DecidableEq, Repr

/-- The submission request shared by all providers, following the fields the
adapters in `internal/batch/gcp` read from `batchpkg.JobConfig`. -/
structure JobConfig where
  JobID : String
  ImageURI : String
  Commands : List String
  EnvVars : List (String × String)
  ContainerEntrypoint : String
  Resources : Option Resources
  TaskGroup : Option TaskGroup
  MaxRetryCount : Int
  ServiceAccount : String
  ProviderOptions : List (String × String)
deriving DecidableEq, Repr

/-- The result of a submission: the backend resource path and the initial
status (`batchpkg.JobResult`). -/
structure JobResult where
  CloudResourcePath : String
  InitialStatus : JobStatus
deriving DecidableEq, Repr

/-- The Router's service tiers (`router.AssignedService` constants referenced
by `dispatcher.go`: AssignedServiceCloudTasks, AssignedServiceCloudRunJob,
AssignedServiceCloudBatch). -/
inductive AssignedService where
  | cloudTasks
  | cloudRunJob
  | cloudBatch
deriving DecidableEq, Repr

/-- Modelled from the spec: the `internal/router` package is not among the
provided sources; its `String` rendering of an `AssignedService` (used by
`fmt.Errorf("... service %s", svc)`) is taken from the spec's tier names. -/
def AssignedService.render : AssignedService → String
  | .cloudTasks => "CloudTasksTier"
  | .cloudRunJob => "CloudRunJobTier"
  | .cloudBatch => "CloudBatchTier"

/-- Modelled from the spec: the `internal/router` package is not among the
provided sources. Classification policy from spec §4.1 — fixed thresholds
checked in ascending order, first match wins:
CPU ≤ 500 mCPU ∧ memory ≤ 512 MiB ∧ duration ≤ 600 s → CloudTasksTier;
else CPU ≤ 4000 ∧ memory ≤ 8192 ∧ duration ≤ 3600 → CloudRunJobTier;
otherwise CloudBatchTier. Total by construction. -/
def classifyJob (r : Resources) : AssignedService :=
  if r.CPUMillis ≤ 500 ∧ r.MemoryMiB ≤ 512 ∧ r.MaxRunDurationSeconds ≤ 600 then
    .cloudTasks
  else if r.CPUMillis ≤ 4000 ∧ r.MemoryMiB ≤ 8192 ∧ r.MaxRunDurationSeconds ≤ 3600 then
    .cloudRunJob
  else
    .cloudBatch

/-- A provider adapter (`batch.Provider` interface), embedded as its response
functions. `getJobStatus` returns the Go pair `(JobStatus, error)`;
`cancelJob` returns the Go `error` (none = nil = success). -/
structure Provider where
  serviceType : String
  submitJob : JobConfig → Except String JobResult
  getJobStatus : String → JobStatus × Option String
  cancelJob : String → Option String
  listJobs : Unit → Except String (List String)

/-- The Dispatcher of `internal/dispatcher/dispatcher.go`: a registry map
`AssignedService → Provider`, embedded as a function into `Option`. -/
structure Dispatcher where
  providers : AssignedService → Option Provider

/-- The all-empty registry `make(map[router.AssignedService]batch.Provider)`. -/
def emptyRegistry : AssignedService → Option Provider := fun _ => none

/-- Registry update (Go map assignment `d.providers[svc] = p`). -/
def Dispatcher.register (d : Dispatcher) (svc : AssignedService) (p : Provider) :
    Dispatcher :=
  ⟨fun s => if s = svc then some p else d.providers s⟩

/-- `Option` configuring a Dispatcher (Go `type Option func(*Dispatcher)`). -/
def DispatcherOption := Dispatcher → Dispatcher

/-- `WithCloudTasks`: registers a provider for the Cloud Tasks tier. -/
def WithCloudTasks (p : Provider) : DispatcherOption :=
  fun d => d.register .cloudTasks p

/-- `WithCloudRunJobs`: registers a provider for the Cloud Run Jobs tier. -/
def WithCloudRunJobs (p : Provider) : DispatcherOption :=
  fun d => d.register .cloudRunJob p

/-- `WithCloudBatch`: registers a provider for the Cloud Batch tier. -/
def WithCloudBatch (p : Provider) : DispatcherOption :=
  fun d => d.register .cloudBatch p

/-- `len(d.providers)`: the number of registered providers. The Go map is
only ever keyed by the three `AssignedService` values. -/
def Dispatcher.numProviders (d : Dispatcher) : Nat :=
  (([AssignedService.cloudTasks, .cloudRunJob, .cloudBatch]).filter
    (fun s => (d.providers s).isSome)).length

/-- Applying the option list to the fresh dispatcher
(`for _, opt := range opts { opt(d) }`). -/
def applyOpts (opts : List DispatcherOption) : Dispatcher :=
  opts.foldl (fun d o => o d) ⟨emptyRegistry⟩

/-- `dispatcher.New`: builds the registry from the options and fails when no
provider is registered. -/
def New (opts : List DispatcherOption) : Except String Dispatcher :=
  let d := applyOpts opts
  if d.numProviders = 0 then
    .error "dispatcher: at least one provider must be configured"
  else
    .ok d

/-- The `fmt.Errorf` message of `ProviderFor` for an unregistered tier. -/
def notRegisteredMsg (svc : AssignedService) : String :=
  "dispatcher: no provider registered for service " ++ svc.render

/-- `Dispatcher.ProviderFor`: registry lookup, error when absent. -/
def Dispatcher.ProviderFor (d : Dispatcher) (svc : AssignedService) :
    Except String Provider :=
  match d.providers svc with
  | some p => .ok p
  | none => .error (notRegisteredMsg svc)

/-- `Dispatcher.SubmitJob`: look up provider, forward. -/
def Dispatcher.SubmitJob (d : Dispatcher) (svc : AssignedService)
    (config : JobConfig) : Except String JobResult :=
  match d.ProviderFor svc with
  | .error e => .error e
  | .ok p => p.submitJob config

/-- `Dispatcher.GetJobStatus`: look up provider, forward; on lookup failure
returns the pair `(batch.JobStatusUnknown, err)` exactly as the Go code does. -/
def Dispatcher.GetJobStatus (d : Dispatcher) (svc : AssignedService)
    (cloudResourcePath : String) : JobStatus × Option String :=
  match d.ProviderFor svc with
  | .error e => (.unknown, some e)
  | .ok p => p.getJobStatus cloudResourcePath

/-- `Dispatcher.CancelJob`: look up provider, forward. -/
def Dispatcher.CancelJob (d : Dispatcher) (svc : AssignedService)
    (cloudResourcePath : String) : Option String :=
  match d.ProviderFor svc with
  | .error e => some e
  | .ok p => p.cancelJob cloudResourcePath

/-! ### Cheap tier: Cloud Tasks (`internal/batch/gcp/cloudtasks.go`) -/

/-- The `google.rpc.Status` of a task attempt, as read by
`respStatus.GetCode()` (an `int32`). -/
structure RpcStatus where
  code : Int
deriving DecidableEq, Repr

/-- A Cloud Tasks attempt: `GetResponseStatus()` may be nil. -/
structure Attempt where
  responseStatus : Option RpcStatus
deriving DecidableEq, Repr

/-- A Cloud Tasks task snapshot: `GetLastAttempt()` may be nil. -/
structure Task where
  lastAttempt : Option Attempt
deriving DecidableEq, Repr

/-- `mapCloudTasksStatus`: nil task → Unknown; last attempt with a response
status → Completed on a 2xx code, otherwise Failed; last attempt without a
response → Running; no last attempt → Pending. -/
def mapCloudTasksStatus : Option Task → JobStatus
  | none => .unknown
  | some task =>
    match task.lastAttempt with
    | some lastAttempt =>
      match lastAttempt.responseStatus with
      | some respStatus =>
        if 200 ≤ respStatus.code ∧ respStatus.code < 300 then .completed
        else .failed
      | none => .running
    | none => .pending

/-- The cheap tier's `CancelJob`, parameterized by the backend `DeleteTask`
call (its Go error, none = success): any backend error is wrapped and
returned, success is forwarded. The code has no special case turning a
NotFound / already-terminal response into success. -/
def cancelJobCT (deleteTask : String → Option String) (path : String) :
    Option String :=
  match deleteTask path with
  | some e => some ("failed to delete Cloud Tasks task: " ++ e)
  | none => none

/-- Modelled from the spec: the external Cloud Tasks backend is not part of
the repository. `DeleteTask` removes an existing task and returns its new
task set; deleting a task that does not exist (e.g. already deleted or
already dispatched and completed) fails with NotFound, per the backend's
documented semantics the adapter comments rely on ("deleting the task
prevents execution"). -/
def ctBackendDelete (existing : List String) (path : String) :
    Option String × List String :=
  if path ∈ existing then (none, existing.erase path)
  else (some "rpc error: code = NotFound desc = task does not exist", existing)

/-- Two consecutive `CancelJob` calls on the same path against the modelled
backend: the first call runs against `existing`, the second against the
state the first call left behind. -/
def ctCancelTwice (existing : List String) (path : String) :
    Option String × Option String :=
  let afterFirst := (ctBackendDelete existing path).2
  (cancelJobCT (fun q => (ctBackendDelete existing q).1) path,
   cancelJobCT (fun q => (ctBackendDelete afterFirst q).1) path)

/-! ### Medium tier: Cloud Run Jobs (`internal/batch/gcp/cloudrunjobs.go`) -/

/-- The `runpb.Condition` state enum (we only ever compare against
`CONDITION_SUCCEEDED`, but keep the vocabulary). -/
inductive ConditionState where
  | stateUnspecified
  | conditionPending
  | conditionReconciling
  | conditionFailed
  | conditionSucceeded
deriving DecidableEq, Repr

/-- A Cloud Run execution condition: `GetType()` and `GetState()`. -/
structure Condition where
  type : String
  state : ConditionState
deriving DecidableEq, Repr

/-- A Cloud Run execution snapshot: condition list plus the running /
succeeded / failed task counters (`int32` in the proto). -/
structure Execution where
  conditions : List Condition
  runningCount : Int
  succeededCount : Int
  failedCount : Int
deriving DecidableEq, Repr

/-- The terminal-condition loop of `mapCloudRunStatus`: scan the condition
list in order and return at the first condition whose type is
`Completed` / `Failed` / `Cancelled` and whose state is
`CONDITION_SUCCEEDED`; conditions of other types or states are skipped. -/
def terminalScan : List Condition → Option JobStatus
  | [] => none
  | condition :: rest =>
    if condition.type = "Completed" ∧ condition.state = .conditionSucceeded then
      some .completed
    else if condition.type = "Failed" ∧ condition.state = .conditionSucceeded then
      some .failed
    else if condition.type = "Cancelled" ∧ condition.state = .conditionSucceeded then
      some .cancelled
    else
      terminalScan rest

/-- `mapCloudRunStatus`: nil execution → Unknown; otherwise the
terminal-condition loop decides if it fires; else running tasks → Running;
else all three counters zero → Pending; else Running (catch-all). -/
def mapCloudRunStatus : Option Execution → JobStatus
  | none => .unknown
  | some execution =>
    match terminalScan execution.conditions with
    | some s => s
    | none =>
      if execution.runningCount > 0 then .running
      else if execution.runningCount = 0 ∧ execution.succeededCount = 0 ∧
          execution.failedCount = 0 then .pending
      else .running

/-- Follows the claim's words, for comparison with `mapCloudRunStatus`: check
the terminal conditions in the fixed order Completed, then Failed, then
Cancelled — each checked across the whole condition list — before falling
back to the task counters. -/
def mapCloudRunStatusFixedOrder (execution : Execution) : JobStatus :=
  if execution.conditions.any
      (fun c => c.type == "Completed" && c.state == .conditionSucceeded) then
    .completed
  else if execution.conditions.any
      (fun c => c.type == "Failed" && c.state == .conditionSucceeded) then
    .failed
  else if execution.conditions.any
      (fun c => c.type == "Cancelled" && c.state == .conditionSucceeded) then
    .cancelled
  else if execution.runningCount > 0 then .running
  else if execution.runningCount = 0 ∧ execution.succeededCount = 0 ∧
      execution.failedCount = 0 then .pending
  else .running

/-- The backend responses consumed by one run of the medium tier's
`SubmitJob`: the `CreateJob` call, the `createOp.Wait` (which yields the
created job's resource name), the `RunJob` call, and the `runOp.Metadata`
extraction. Each is the Go `(value, error)` of that step. -/
structure CloudRunSubmitOutcome where
  create : Except String Unit
  wait : Except String String
  run : Except String Unit
  metadata : Except String String

/-- The medium tier's `SubmitJob` control flow over those step outcomes:
each failing step returns its own wrapped error; a `Metadata` failure is
only logged — the result is the same `JobResult` either way, carrying the
created job's name and `JobStatusRunning`. -/
def submitJobCR (o : CloudRunSubmitOutcome) : Except String JobResult :=
  match o.create with
  | .error e => .error ("failed to create Cloud Run job: " ++ e)
  | .ok _ =>
    match o.wait with
    | .error e => .error ("failed waiting for Cloud Run job creation: " ++ e)
    | .ok jobName =>
      match o.run with
      | .error e => .error ("failed to run Cloud Run job: " ++ e)
      | .ok _ =>
        match o.metadata with
        | .error _ => .ok ⟨jobName, .running⟩
        | .ok _ => .ok ⟨jobName, .running⟩

/-! ### Concrete fixtures used by witnesses -/

/-- A concrete provider for witness instantiations. -/
def sampleProvider : Provider where
  serviceType := "CLOUD_TASKS"
  submitJob := fun config =>
    .ok ⟨"projects/p/locations/r/queues/q/tasks/" ++ config.JobID, .pending⟩
  getJobStatus := fun _ => (.running, none)
  cancelJob := fun _ => none
  listJobs := fun _ => .ok []

/-- A concrete submission request for witness instantiations. -/
def sampleConfig : JobConfig :=
  ⟨"job-1", "gcr.io/p/img:latest", [], [], "", none, none, 0, "", []⟩

/-- A dispatcher with no providers registered. -/
def emptyDispatcher : Dispatcher := ⟨emptyRegistry⟩

/-- A dispatcher with only a cheap-tier provider registered. -/
def sampleDispatcher : Dispatcher := applyOpts [WithCloudTasks sampleProvider]

/-- Whether `pat` occurs as a contiguous subsequence of the second list
(used to ask whether a resource handle occurs inside an error message). -/
def containsSeq (pat : List Char) : List Char → Bool
  | [] => pat.isEmpty
  | c :: rest => pat.isPrefixOf (c :: rest) || containsSeq pat rest

/-- An execution whose condition list holds a succeeded `Failed` condition
before a succeeded `Completed` condition. -/
def exListOrder : Execution :=
  ⟨[⟨"Failed", .conditionSucceeded⟩, ⟨"Completed", .conditionSucceeded⟩],
    0, 0, 0⟩

/-- An execution carrying both a succeeded `Completed` and a succeeded
`Failed` condition, the `Completed` one first. -/
def exPrecedence : Execution :=
  ⟨[⟨"Completed", .conditionSucceeded⟩, ⟨"Failed", .conditionSucceeded⟩],
    0, 0, 0⟩

/-- The concrete medium-tier submission outcome in which the job resource
was created (its name is known) and the run step then failed. -/
def runFailOutcome : CloudRunSubmitOutcome :=
  ⟨.ok (), .ok "projects/p/locations/r/jobs/jennah-demo",
   .error "rpc error: code = ResourceExhausted desc = quota exceeded",
   .ok ""⟩

/-! ### Theorems -/

/-- C1: the Router is total on resource triples (it is a Lean function into
`AssignedService`, so it returns exactly one tier and never fails); triples
at or below (500 mCPU, 512 MiB, 600 s) in every dimension yield the cheap
tier, triples at or below (4000, 8192, 3600) that exceed the first tier in
some dimension yield the medium tier, all other triples yield the heavy
tier, and the all-zero triple yields the cheap tier. -/
theorem classifyJob_router_policy (r : Resources) :
    ((r.CPUMillis ≤ 500 ∧ r.MemoryMiB ≤ 512 ∧ r.MaxRunDurationSeconds ≤ 600) →
      classifyJob r = .cloudTasks) ∧
    (¬(r.CPUMillis ≤ 500 ∧ r.MemoryMiB ≤ 512 ∧ r.MaxRunDurationSeconds ≤ 600) ∧
      (r.CPUMillis ≤ 4000 ∧ r.MemoryMiB ≤ 8192 ∧ r.MaxRunDurationSeconds ≤ 3600) →
      classifyJob r = .cloudRunJob) ∧
    (¬(r.CPUMillis ≤ 4000 ∧ r.MemoryMiB ≤ 8192 ∧ r.MaxRunDurationSeconds ≤ 3600) →
      classifyJob r = .cloudBatch) ∧
    classifyJob ⟨0, 0, 0⟩ = .cloudTasks := by
  refine ⟨fun h => ?_, fun h => ?_, fun h => ?_, by decide⟩
  · unfold classifyJob
    rw [if_pos h]
  · unfold classifyJob
    rw [if_neg h.1, if_pos h.2]
  · have h1 : ¬(r.CPUMillis ≤ 500 ∧ r.MemoryMiB ≤ 512 ∧
        r.MaxRunDurationSeconds ≤ 600) := by
      intro hh
      exact h ⟨hh.1.trans (by norm_num), hh.2.1.trans (by norm_num),
        hh.2.2.trans (by norm_num)⟩
    unfold classifyJob
    rw [if_neg h1, if_neg h]

/-- Witness for C1 at concrete triples in each region. -/
theorem classifyJob_router_policy_witness :
    classifyJob ⟨0, 0, 0⟩ = .cloudTasks ∧
    classifyJob ⟨600, 1024, 600⟩ = .cloudRunJob ∧
    classifyJob ⟨8000, 16384, 0⟩ = .cloudBatch :=
  ⟨(classifyJob_router_policy ⟨0, 0, 0⟩).1 (by decide),
   (classifyJob_router_policy ⟨600, 1024, 600⟩).2.1 (by decide),
   (classifyJob_router_policy ⟨8000, 16384, 0⟩).2.2.1 (by decide)⟩

/-- C2: for every dispatcher and tier with no registered provider,
`ProviderFor` — and hence `SubmitJob`, `GetJobStatus`, `CancelJob` for that
tier — returns the not-registered error; all four are total functions, so
none can panic or dereference nil. -/
theorem dispatcher_unregistered_tier_errors (d : Dispatcher)
    (svc : AssignedService) (config : JobConfig) (path : String)
    (h : d.providers svc = none) :
    d.ProviderFor svc = .error (notRegisteredMsg svc) ∧
    d.SubmitJob svc config = .error (notRegisteredMsg svc) ∧
    d.GetJobStatus svc path = (.unknown, some (notRegisteredMsg svc)) ∧
    d.CancelJob svc path = some (notRegisteredMsg svc) := by
  simp [Dispatcher.ProviderFor, Dispatcher.SubmitJob, Dispatcher.GetJobStatus,
    Dispatcher.CancelJob, h]

/-- Witness for C2 on the empty dispatcher. -/
theorem dispatcher_unregistered_tier_errors_witness :
    emptyDispatcher.ProviderFor .cloudRunJob =
      .error (notRegisteredMsg .cloudRunJob) ∧
    emptyDispatcher.SubmitJob .cloudRunJob sampleConfig =
      .error (notRegisteredMsg .cloudRunJob) ∧
    emptyDispatcher.GetJobStatus .cloudRunJob "jobs/x" =
      (.unknown, some (notRegisteredMsg .cloudRunJob)) ∧
    emptyDispatcher.CancelJob .cloudRunJob "jobs/x" =
      some (notRegisteredMsg .cloudRunJob) :=
  dispatcher_unregistered_tier_errors emptyDispatcher .cloudRunJob
    sampleConfig "jobs/x" rfl

/-- C3: `New` with zero providers registered fails with the configuration
error; with at least one registered provider it succeeds and returns the
built dispatcher. -/
theorem dispatcher_new_requires_provider (opts : List DispatcherOption) :
    ((applyOpts opts).numProviders = 0 →
      New opts = .error "dispatcher: at least one provider must be configured") ∧
    ((applyOpts opts).numProviders ≠ 0 → New opts = .ok (applyOpts opts)) := by
  constructor <;> intro h <;> simp [New, h]

/-- Witness for C3: the empty option list fails, a single registration
succeeds. -/
theorem dispatcher_new_requires_provider_witness :
    New [] = .error "dispatcher: at least one provider must be configured" ∧
    New [WithCloudTasks sampleProvider] =
      .ok (applyOpts [WithCloudTasks sampleProvider]) :=
  ⟨(dispatcher_new_requires_provider []).1 rfl,
   (dispatcher_new_requires_provider [WithCloudTasks sampleProvider]).2
     (by decide)⟩

/-- C4: for a tier with a registered provider, `SubmitJob`, `GetJobStatus`
and `CancelJob` return exactly the provider's result and error — pure
forwarding, no retry, no translation. -/
theorem dispatcher_forwards_to_provider (d : Dispatcher)
    (svc : AssignedService) (p : Provider) (config : JobConfig) (path : String)
    (h : d.providers svc = some p) :
    d.SubmitJob svc config = p.submitJob config ∧
    d.GetJobStatus svc path = p.getJobStatus path ∧
    d.CancelJob svc path = p.cancelJob path := by
  simp [Dispatcher.SubmitJob, Dispatcher.GetJobStatus, Dispatcher.CancelJob,
    Dispatcher.ProviderFor, h]

/-- Witness for C4 on a dispatcher holding the sample provider. -/
theorem dispatcher_forwards_to_provider_witness :
    sampleDispatcher.SubmitJob .cloudTasks sampleConfig =
      sampleProvider.submitJob sampleConfig ∧
    sampleDispatcher.GetJobStatus .cloudTasks "tasks/t1" =
      sampleProvider.getJobStatus "tasks/t1" ∧
    sampleDispatcher.CancelJob .cloudTasks "tasks/t1" =
      sampleProvider.cancelJob "tasks/t1" :=
  dispatcher_forwards_to_provider sampleDispatcher .cloudTasks sampleProvider
    sampleConfig "tasks/t1" rfl

/-- C10: whenever `GetJobStatus` finds no provider for the tier, the status
component of the returned pair is exactly `JobStatusUnknown`, alongside a
present error. -/
theorem dispatcher_getJobStatus_unknown_on_missing (d : Dispatcher)
    (svc : AssignedService) (path : String) (h : d.providers svc = none) :
    (d.GetJobStatus svc path).1 = .unknown ∧
    (d.GetJobStatus svc path).2.isSome = true := by
  simp [Dispatcher.GetJobStatus, Dispatcher.ProviderFor, h]

/-- Witness for C10 on the empty dispatcher. -/
theorem dispatcher_getJobStatus_unknown_on_missing_witness :
    (emptyDispatcher.GetJobStatus .cloudBatch "jobs/y").1 = .unknown ∧
    (emptyDispatcher.GetJobStatus .cloudBatch "jobs/y").2.isSome = true :=
  dispatcher_getJobStatus_unknown_on_missing emptyDispatcher .cloudBatch
    "jobs/y" rfl

/-- Helper: the terminal-condition loop only ever yields a terminal status. -/
lemma terminalScan_terminal (conds : List Condition) (s : JobStatus)
    (h : terminalScan conds = some s) :
    s = .completed ∨ s = .failed ∨ s = .cancelled := by
  induction conds with
  | nil => simp [terminalScan] at h
  | cons c rest ih =>
    simp only [terminalScan] at h
    split_ifs at h with h1 h2 h3
    · exact Or.inl (Option.some.inj h).symm
    · exact Or.inr (Or.inl (Option.some.inj h).symm)
    · exact Or.inr (Or.inr (Option.some.inj h).symm)
    · exact ih h

/-- Counterexample for C5: on `exListOrder` the code maps to Failed (first
succeeded terminal condition in list order) while checking the terminal
conditions in the claimed fixed order Completed, Failed, Cancelled would
map to Completed — the mapper does not check in that fixed order. -/
theorem mapCloudRunStatus_fixed_order_counterexample :
    mapCloudRunStatus (some exListOrder) = .failed ∧
    mapCloudRunStatusFixedOrder exListOrder = .completed ∧
    mapCloudRunStatus (some exListOrder) ≠
      mapCloudRunStatusFixedOrder exListOrder := by
  refine ⟨by decide, by decide, by decide⟩

/-- C5 (amended): the medium-tier status mapper scans the condition list in
order and the first condition of type Completed / Failed / Cancelled whose
state is succeeded determines a terminal status regardless of the task
counts; only when no such condition exists does it fall back to counting
running versus pending tasks. -/
theorem mapCloudRunStatus_terminal_first (conds : List Condition)
    (r sc f : Int) :
    (∀ s, terminalScan conds = some s →
      mapCloudRunStatus (some ⟨conds, r, sc, f⟩) = s ∧
      (s = .completed ∨ s = .failed ∨ s = .cancelled)) ∧
    (terminalScan conds = none →
      (mapCloudRunStatus (some ⟨conds, r, sc, f⟩) = .pending ↔
        (r = 0 ∧ sc = 0 ∧ f = 0)) ∧
      (mapCloudRunStatus (some ⟨conds, r, sc, f⟩) = .running ↔
        ¬(r = 0 ∧ sc = 0 ∧ f = 0))) := by
  constructor
  · intro s h
    exact ⟨by simp [mapCloudRunStatus, h], terminalScan_terminal conds s h⟩
  · intro h
    simp only [mapCloudRunStatus, h]
    split_ifs with h1 h2
    · have hne : ¬(r = 0 ∧ sc = 0 ∧ f = 0) := by omega
      constructor
      · simp [hne]
      · simp [hne]
    · simp [h2]
    · constructor
      · simp [h2]
      · simp [h2]

/-- Witness for C5 at a terminal snapshot with nonzero counts and at an
empty snapshot. -/
theorem mapCloudRunStatus_terminal_first_witness :
    mapCloudRunStatus
      (some ⟨[⟨"Completed", .conditionSucceeded⟩], 5, 2, 1⟩) = .completed ∧
    mapCloudRunStatus (some ⟨[], 0, 0, 0⟩) = .pending :=
  ⟨((mapCloudRunStatus_terminal_first [⟨"Completed", .conditionSucceeded⟩]
      5 2 1).1 .completed (by decide)).1,
   (((mapCloudRunStatus_terminal_first [] 0 0 0).2 (by decide)).1).mpr
     (by decide)⟩

/-- Counterexample for C6: `exPrecedence` carries a succeeded `Failed`
condition, yet the mapper returns Completed — ambiguity is not resolved by
the claimed precedence terminal-failure > terminal-success; list order of
the backend's condition list decides instead. -/
theorem mapStatus_precedence_counterexample :
    mapCloudRunStatus (some exPrecedence) = .completed ∧
    (exPrecedence.conditions.any fun c =>
      c.type == "Failed" && c.state == .conditionSucceeded) = true := by
  refine ⟨by decide, by decide⟩

/-- C6 (amended): each status mapper yields exactly one logical status and
returns Unknown only for a missing snapshot (never when a snapshot is
available); co-existing terminal conditions in the medium tier are resolved
by the order of the backend's condition list — the first succeeded terminal
condition wins — not by a failure-over-success precedence. -/
theorem status_mappers_resolution :
    (∀ t : Task, mapCloudTasksStatus (some t) ≠ .unknown) ∧
    (∀ e : Execution, mapCloudRunStatus (some e) ≠ .unknown) ∧
    (∀ conds r sc f s, terminalScan conds = some s →
      mapCloudRunStatus (some ⟨conds, r, sc, f⟩) = s) := by
  refine ⟨fun t => ?_, fun e => ?_, fun conds r sc f s h => by
    simp [mapCloudRunStatus, h]⟩
  · rcases t with ⟨la⟩
    cases la with
    | none => simp [mapCloudTasksStatus]
    | some a =>
      rcases a with ⟨rs⟩
      cases rs with
      | none => simp [mapCloudTasksStatus]
      | some st =>
        simp only [mapCloudTasksStatus]
        split_ifs <;> simp
  · rcases e with ⟨conds, r, sc, f⟩
    cases hts : terminalScan conds with
    | some s =>
      have hterm := terminalScan_terminal conds s hts
      simp only [mapCloudRunStatus, hts]
      rcases hterm with h | h | h <;> subst h <;> simp
    | none =>
      simp only [mapCloudRunStatus, hts]
      split_ifs <;> simp

/-- Witness for C6 at concrete snapshots. -/
theorem status_mappers_resolution_witness :
    mapCloudTasksStatus (some ⟨none⟩) ≠ .unknown ∧
    mapCloudRunStatus (some ⟨[], 0, 0, 0⟩) ≠ .unknown ∧
    mapCloudRunStatus
      (some ⟨[⟨"Cancelled", .conditionSucceeded⟩], 3, 0, 0⟩) = .cancelled :=
  ⟨status_mappers_resolution.1 ⟨none⟩,
   status_mappers_resolution.2.1 ⟨[], 0, 0, 0⟩,
   status_mappers_resolution.2.2 [⟨"Cancelled", .conditionSucceeded⟩]
     3 0 0 .cancelled (by decide)⟩

/-- C7: the cheap-tier status mapper is driven by the last-attempt response
code — a response code in [200, 300) maps to Completed, any other code to
Failed, a last attempt with no response yet to Running, and a task with no
last attempt to Pending. -/
theorem mapCloudTasksStatus_last_attempt_policy (task : Task) :
    (∀ a rs, task.lastAttempt = some a → a.responseStatus = some rs →
      (200 ≤ rs.code ∧ rs.code < 300 →
        mapCloudTasksStatus (some task) = .completed) ∧
      (¬(200 ≤ rs.code ∧ rs.code < 300) →
        mapCloudTasksStatus (some task) = .failed)) ∧
    (∀ a, task.lastAttempt = some a → a.responseStatus = none →
      mapCloudTasksStatus (some task) = .running) ∧
    (task.lastAttempt = none → mapCloudTasksStatus (some task) = .pending) := by
  refine ⟨fun a rs ha hrs => ⟨fun hc => ?_, fun hc => ?_⟩,
    fun a ha hrs => ?_, fun ha => ?_⟩ <;>
    simp [mapCloudTasksStatus, *]

/-- Witness for C7 covering all four cases at concrete tasks. -/
theorem mapCloudTasksStatus_last_attempt_policy_witness :
    mapCloudTasksStatus (some ⟨some ⟨some ⟨200⟩⟩⟩) = .completed ∧
    mapCloudTasksStatus (some ⟨some ⟨some ⟨503⟩⟩⟩) = .failed ∧
    mapCloudTasksStatus (some ⟨some ⟨none⟩⟩) = .running ∧
    mapCloudTasksStatus (some ⟨none⟩) = .pending :=
  ⟨((mapCloudTasksStatus_last_attempt_policy ⟨some ⟨some ⟨200⟩⟩⟩).1
      ⟨some ⟨200⟩⟩ ⟨200⟩ rfl rfl).1 (by decide),
   ((mapCloudTasksStatus_last_attempt_policy ⟨some ⟨some ⟨503⟩⟩⟩).1
      ⟨some ⟨503⟩⟩ ⟨503⟩ rfl rfl).2 (by decide),
   (mapCloudTasksStatus_last_attempt_policy ⟨some ⟨none⟩⟩).2.1
      ⟨none⟩ rfl rfl,
   (mapCloudTasksStatus_last_attempt_policy ⟨none⟩).2.2 rfl⟩

/-- C8 (evaluated at the failing input): cancelling the same Cloud Tasks
path twice against the modelled backend — the first delete removes the
task, the second hits NotFound — succeeds the first time and returns a
wrapped error the second time: the adapter adds no handling that turns an
already-terminal / already-deleted cancel into a no-op success. -/
theorem cancelJobCT_second_cancel_fails :
    (ctCancelTwice ["projects/p/locations/r/queues/q/tasks/t1"]
      "projects/p/locations/r/queues/q/tasks/t1").1 = none ∧
    (ctCancelTwice ["projects/p/locations/r/queues/q/tasks/t1"]
      "projects/p/locations/r/queues/q/tasks/t1").2 =
      some ("failed to delete Cloud Tasks task: " ++
        "rpc error: code = NotFound desc = task does not exist") := by
  refine ⟨rfl, rfl⟩

/-- Counterexample for C9: when the create step succeeded (handle
`projects/p/locations/r/jobs/jennah-demo` known) and the run step failed,
the returned error names the failed step but the created resource's handle
does not occur anywhere in it. -/
theorem submitJobCR_handle_counterexample :
    submitJobCR runFailOutcome = .error
      ("failed to run Cloud Run job: " ++
        "rpc error: code = ResourceExhausted desc = quota exceeded") ∧
    (containsSeq "projects/p/locations/r/jobs/jennah-demo".data
      ("failed to run Cloud Run job: " ++
        "rpc error: code = ResourceExhausted desc = quota exceeded").data)
      = false := by
  refine ⟨rfl, by decide⟩

/-- C9 (amended): when the medium-tier two-step submission fails partway,
the returned error states which step failed (create, wait-for-creation, or
run) and wraps the underlying cause; it does not itself include the created
resource's handle — the handle appears only if the backend's own error text
happens to contain it. -/
theorem submitJobCR_step_errors (o : CloudRunSubmitOutcome) :
    (∀ e, o.create = .error e →
      submitJobCR o = .error ("failed to create Cloud Run job: " ++ e)) ∧
    (∀ u e, o.create = .ok u → o.wait = .error e →
      submitJobCR o =
        .error ("failed waiting for Cloud Run job creation: " ++ e)) ∧
    (∀ u jobName e, o.create = .ok u → o.wait = .ok jobName →
      o.run = .error e →
      submitJobCR o = .error ("failed to run Cloud Run job: " ++ e)) := by
  refine ⟨fun e h => ?_, fun u e h1 h2 => ?_,
    fun u jobName e h1 h2 h3 => ?_⟩ <;>
    simp [submitJobCR, *]

/-- Witness for C9 at concrete outcomes of each failing step. -/
theorem submitJobCR_step_errors_witness :
    submitJobCR ⟨.error "denied", .ok "", .ok (), .ok ""⟩ =
      .error "failed to create Cloud Run job: denied" ∧
    submitJobCR ⟨.ok (), .error "timeout", .ok (), .ok ""⟩ =
      .error "failed waiting for Cloud Run job creation: timeout" ∧
    submitJobCR runFailOutcome = .error
      ("failed to run Cloud Run job: " ++
        "rpc error: code = ResourceExhausted desc = quota exceeded") :=
  ⟨(submitJobCR_step_errors ⟨.error "denied", .ok "", .ok (), .ok ""⟩).1
      "denied" rfl,
   (submitJobCR_step_errors ⟨.ok (), .error "timeout", .ok (), .ok ""⟩).2.1
      () "timeout" rfl rfl,
   (submitJobCR_step_errors runFailOutcome).2.2
      () "projects/p/locations/r/jobs/jennah-demo"
      "rpc error: code = ResourceExhausted desc = quota exceeded" rfl rfl rfl⟩

end Jennah
